import Mathlib

/-!
Shallow embedding of the lmstudio-mcp server (src/index.ts): an MCP tool
server that forwards tool invocations as single HTTP calls to the LM Studio
OpenAI-compatible API and reshapes the JSON responses into text blocks.

Modelling conventions:
* JavaScript string truthiness (`x || d` where `x : string | undefined`)
  is modelled by `strOr`: the default is taken both when the value is
  absent and when it is the empty string.
* Response fields that the handlers access through `?.` or `||` guards are
  modelled as `Option` fields, since the `response.json() as T` cast does
  not validate the payload; fields the handlers never read are kept with
  their declared types.
* The outbound side effect of `fetch` is modelled by a small free monad
  `HttpM` whose `trace` semantics records every outbound call, so that the
  number of HTTP calls per invocation and the forwarded request bodies are
  provable facts.
* A request body (`JSON.stringify` of a chat payload in the source) is
  carried structurally as a `ChatRequestBody`; the only bodies the program
  ever sends are chat request bodies.
-/

namespace LmStudioMcp

/-- Default base URL constant `LM_STUDIO_BASE_URL` from src/index.ts. -/
def LM_STUDIO_BASE_URL : String := "http://localhost:1234"

/-- Version path segment constant `V1` from src/index.ts. -/
def V1 : String := "/v1"

/-- Role of a chat message (`"system" | "user" | "assistant"`). -/
inductive Role where
  | system
  | user
  | assistant
deriving DecidableEq

/-- ChatMessage interface: `{role, content: string}`. -/
structure ChatMessage where
  role : Role
  content : String
deriving DecidableEq

/-- LMStudioModel interface: `{id: string, name?: string, object, created, owned_by}`. -/
structure LMStudioModel where
  id : String
  name : Option String := none
  object : String := "model"
  created : Nat := 0
  owned_by : String := ""
deriving DecidableEq

/-- LMStudioModelsResponse interface: the handler reads `response.data || []`,
so `data` is modelled as optional (absent field after the unchecked cast). -/
structure LMStudioModelsResponse where
  data : Option (List LMStudioModel) := none
deriving DecidableEq

/-- ChatCompletionChoice interface; the handler reads `choices?.[0]?.message?.content`,
so `message` is modelled as optional. -/
structure ChatCompletionChoice where
  index : Nat := 0
  message : Option ChatMessage := none
  finish_reason : String := ""
deriving DecidableEq

/-- ChatCompletionUsage interface: `{prompt_tokens, completion_tokens, total_tokens}`. -/
structure ChatCompletionUsage where
  prompt_tokens : Nat
  completion_tokens : Nat
  total_tokens : Nat
deriving DecidableEq

/-- ChatCompletionResponse interface; `model`, `choices` and `usage` are read
through `||` or `?.` guards, so they are modelled as optional. -/
structure ChatCompletionResponse where
  model : Option String := none
  choices : Option (List ChatCompletionChoice) := none
  usage : Option ChatCompletionUsage := none
deriving DecidableEq

/-- Body of an outbound POST, `{model: "local-model", messages: [...]}`;
stands for the `JSON.stringify` of that object in the source. -/
structure ChatRequestBody where
  model : String
  messages : List ChatMessage
deriving DecidableEq

/-- RequestOptions interface: `{method?, headers?, body?}`. -/
structure RequestOptions where
  method : Option String := none
  headers : List (String × String) := []
  body : Option ChatRequestBody := none
deriving DecidableEq

/-- Outcome of one `fetch` call: either the promise rejects with a transport
error carrying a message, or a response arrives with a status code, a status
text and a body whose JSON parse either succeeds or fails with a message. -/
inductive HttpReply (β : Type) where
  | netError (msg : String)
  | reply (status : Nat) (statusText : String) (body : Except String β)

/-- Computation that may perform outbound HTTP calls: the free monad over one
`fetch` operation taking a URL and options and receiving an `HttpReply`. -/
inductive HttpM (β : Type) (α : Type) where
  | pure (a : α)
  | fetch (url : String) (opts : RequestOptions) (k : HttpReply β → HttpM β α)

/-- Sequencing of `HttpM` computations. -/
def HttpM.bind {β α γ : Type} : HttpM β α → (α → HttpM β γ) → HttpM β γ
  | .pure a, f => f a
  | .fetch u o k, f => .fetch u o fun r => HttpM.bind (k r) f

/-- Run an `HttpM` computation against an oracle giving the reply to the n-th
outbound call; returns the result together with the list of outbound calls
(URL and options) that were performed, in order. -/
def HttpM.trace {β α : Type} : HttpM β α → (Nat → HttpReply β) → α × List (String × RequestOptions)
  | .pure a, _ => (a, [])
  | .fetch u o k, or =>
      let p := HttpM.trace (k (or 0)) fun n => or (n + 1)
      (p.1, (u, o) :: p.2)

/-- JavaScript `x || d` for `x : string | undefined`: the default is used when
the value is absent and also when it is the empty string (falsy). -/
def strOr (o : Option String) (d : String) : String :=
  match o with
  | some s => if s = "" then d else s
  | none => d

/-- Value of `--base-url` from the command line, as computed in `makeRequest`:
`args.findIndex(arg => arg === '--base-url')`, then the next argument if it
exists, else null. `args` is `process.argv.slice(2)`. -/
def baseUrlFromArgs (args : List String) : Option String :=
  match args.findIdx? (· == "--base-url") with
  | none => none
  | some i => args[i + 1]?

/-- Base URL actually used: `baseUrlFromArgs || LM_STUDIO_BASE_URL` (string
truthiness: an empty-string value also falls back to the default). -/
def resolvedBaseUrl (args : List String) : String :=
  strOr (baseUrlFromArgs args) LM_STUDIO_BASE_URL

/-- Full outbound URL in `makeRequest`: base URL, then `/v1`, then the endpoint. -/
def requestUrl (args : List String) (endpoint : String) : String :=
  resolvedBaseUrl args ++ V1 ++ endpoint

/-- Success range test of `response.ok` in fetch: status 200 to 299. -/
def statusOk (status : Nat) : Bool :=
  200 ≤ status && status ≤ 299

/-- Error classification of `makeRequest` applied to one fetch outcome:
a rejected promise is wrapped into a "request failed" error carrying the
transport error message; a non-ok status raises an error with the status code
and status text; a JSON parse failure raises a "parsing failed" error;
otherwise the parsed value is returned. -/
def classifyReply {β : Type} : HttpReply β → Except String β
  | .netError msg => .error ("LM Studio API request failed: " ++ msg)
  | .reply status statusText body =>
      if statusOk status then
        match body with
        | .ok v => .ok v
        | .error msg => .error ("LM Studio API response parsing failed: " ++ msg)
      else
        .error ("LM Studio API request failed: HTTP " ++ toString status ++ ": " ++ statusText)

/-- The `makeRequest` function: computes the URL from the command-line
arguments, performs exactly one fetch, and classifies the outcome. -/
def makeRequest {β : Type} (args : List String) (endpoint : String)
    (options : RequestOptions := {}) : HttpM β (Except String β) :=
  .fetch (requestUrl args endpoint) options fun rep => .pure (classifyReply rep)

/-- Content block of a tool result; the handlers only ever produce text blocks. -/
inductive ContentBlock where
  | text (s : String)
deriving DecidableEq

/-- Result returned by a tool handler: a list of content blocks, returned as a
successful MCP tool result (never a protocol-level error). -/
structure ToolResult where
  content : List ContentBlock
deriving DecidableEq

/-- Wrap a single text block as a tool result, the only result shape the
handlers produce: `{content: [{type: "text", text: ...}]}`. -/
def textResult (s : String) : ToolResult :=
  { content := [.text s] }

/-- The echo handler: returns `"Echo: " + text` with no outbound call. The
type is `HttpM β` for any `β` since it performs no fetch. -/
def echo {β : Type} (text : String) : HttpM β ToolResult :=
  .pure (textResult ("Echo: " ++ text))

/-- Label printed for one model entry: `model.id || model.name || 'Unknown Model'`
(string truthiness on both fields). -/
def modelLabel (m : LMStudioModel) : String :=
  strOr (some m.id) (strOr m.name "Unknown Model")

/-- Numbered model list built by `models.map((model, index) => ...)`
joined with newlines: the k-th line is `(k+1) ++ ". " ++ label`. -/
def modelListText (models : List LMStudioModel) : String :=
  String.intercalate "\n"
    (models.enum.map fun p => toString (p.1 + 1) ++ ". " ++ modelLabel p.2)

/-- Formatting branch of the lmstudio_list_models handler on a successfully
parsed response: empty (or absent) data gives the no-models message, otherwise
a header plus the numbered list. -/
def renderListModels (response : LMStudioModelsResponse) : ToolResult :=
  let models := response.data.getD []
  if models.length = 0 then
    textResult "No models found in LM Studio. Make sure you have loaded models in LM Studio."
  else
    textResult ("Available LM Studio Models (" ++ toString models.length ++ " total):\n\n"
      ++ modelListText models)

/-- The lmstudio_list_models handler: one GET to /models through `makeRequest`;
the catch block turns any error into a failure text result. -/
def lmstudio_list_models (args : List String) : HttpM LMStudioModelsResponse ToolResult :=
  (makeRequest args "/models").bind fun res =>
    .pure <|
      match res with
      | .ok response => renderListModels response
      | .error msg => textResult ("❌ Failed to list models\nError: " ++ msg)

/-- First assistant reply content `response.choices?.[0]?.message?.content`
as an optional string (absent when the chain breaks at any point). -/
def firstChoiceContent (response : ChatCompletionResponse) : Option String :=
  (response.choices.bind List.head?).bind fun c => c.message.map (·.content)

/-- Formatting branch of lmstudio_get_current_model on a successfully parsed
response: `model || "unknown"` and `choices?.[0]?.message?.content || "No response"`. -/
def renderCurrentModel (response : ChatCompletionResponse) : ToolResult :=
  let modelInfo := strOr response.model "unknown"
  let message := strOr (firstChoiceContent response) "No response"
  textResult ("Current Model: " ++ modelInfo ++ "\n\nModel Response: " ++ message)

/-- The lmstudio_get_current_model handler: one POST to /chat/completions with
a fixed probe prompt; the catch block turns any error into a failure text. -/
def lmstudio_get_current_model (args : List String) : HttpM ChatCompletionResponse ToolResult :=
  (makeRequest args "/chat/completions"
      { method := some "POST"
        body := some { model := "local-model"
                       messages := [{ role := .user, content := "What model are you?" }] } }).bind
    fun res =>
      .pure <|
        match res with
        | .ok response => renderCurrentModel response
        | .error msg =>
            textResult ("❌ Failed to get current model\nError: " ++ msg
              ++ "\n\nNote: Make sure a model is loaded and running in LM Studio.")

/-- Message list built by the lmstudio_chat_completion handler: the system
message is pushed only `if (system_prompt)`, i.e. only when it is provided and
non-empty (truthiness), then the user prompt is always pushed. -/
def chatMessages (prompt : String) (system_prompt : Option String) : List ChatMessage :=
  (match system_prompt with
   | some s => if s = "" then [] else [{ role := Role.system, content := s }]
   | none => []) ++ [{ role := Role.user, content := prompt }]

/-- The `JSON.stringify(usage, null, 2)` rendering: `\x7b\x7d` for the empty
object substituted when usage is absent, otherwise the two-space-indented
object with the three counters. -/
def stringifyUsage (usage : Option ChatCompletionUsage) : String :=
  match usage with
  | none => "\x7b\x7d"
  | some u =>
      "\x7b\n  \"prompt_tokens\": " ++ toString u.prompt_tokens
        ++ ",\n  \"completion_tokens\": " ++ toString u.completion_tokens
        ++ ",\n  \"total_tokens\": " ++ toString u.total_tokens ++ "\n\x7d"

/-- Formatting branch of lmstudio_chat_completion on a successfully parsed
response: completion text, model id and usage counters with their fallbacks. -/
def renderChatCompletion (response : ChatCompletionResponse) : ToolResult :=
  let completion := strOr (firstChoiceContent response) "No response generated"
  let model := strOr response.model "unknown"
  let usage := response.usage
  textResult ("**Model:** " ++ model ++ "\n\n**Response:**\n" ++ completion
    ++ "\n\n**Usage:** " ++ stringifyUsage usage)

/-- The lmstudio_chat_completion handler: builds the message list, performs one
POST to /chat/completions, and formats the response or the caught error. -/
def lmstudio_chat_completion (args : List String) (prompt : String)
    (system_prompt : Option String) : HttpM ChatCompletionResponse ToolResult :=
  (makeRequest args "/chat/completions"
      { method := some "POST"
        body := some { model := "local-model"
                       messages := chatMessages prompt system_prompt } }).bind
    fun res =>
      .pure <|
        match res with
        | .ok response => renderChatCompletion response
        | .error msg =>
            textResult ("❌ Failed to generate completion\nError: " ++ msg
              ++ "\n\nNote: Make sure a model is loaded and running in LM Studio.")

/-- Sample model list used to evaluate the formatting law on concrete input. -/
def sampleModels : List LMStudioModel :=
  [{ id := "model-a" }, { id := "model-b" }]

/-! Helper lemmas shared by the claim theorems. -/

/-- First occurrence search when the flag is the last element and absent before. -/
theorem findIdx?_flag_last (l : List String) (h : "--base-url" ∉ l) :
    (l ++ ["--base-url"]).findIdx? (· == "--base-url") = some l.length := by
  induction l with
  | nil => rfl
  | cons a t ih =>
      have ha : (a == "--base-url") = false := by
        simp only [beq_eq_false_iff_ne]
        exact fun hv => h (hv ▸ List.mem_cons_self a t)
      have ht : "--base-url" ∉ t := fun hm => h (List.mem_cons_of_mem a hm)
      simp [List.findIdx?_cons, ha, ih ht]

/-! Theorems for the claims. -/

/-- C6: for every string t, invoking the echo tool with text t returns a result
whose single text block is exactly "Echo: " followed by t, and the handler
performs no outbound call and cannot fail (it is a total function). -/
theorem echo_returns_prefixed_text {β : Type} (t : String) (oracle : Nat → HttpReply β) :
    ((echo (β := β) t).trace oracle).1 = { content := [ContentBlock.text ("Echo: " ++ t)] }
    ∧ ((echo (β := β) t).trace oracle).2 = [] :=
  ⟨rfl, rfl⟩

/-- C5: makeRequest performs its single fetch and classifies every outcome into
exactly one of three errors or success: a transport failure is wrapped into a
"request failed" error carrying the transport error message (not the raw
exception); a status outside 200..299 raises an error carrying the status code
and status text; a JSON parse failure on a successful status raises a
"response parsing failed" error; otherwise the parsed value is returned. -/
theorem makeRequest_error_taxonomy {β : Type} (args : List String) (endpoint : String)
    (opts : RequestOptions) :
    (∀ r : HttpReply β, ((makeRequest args endpoint opts).trace fun _ => r).1 = classifyReply r)
    ∧ (∀ msg, classifyReply (β := β) (.netError msg)
        = .error ("LM Studio API request failed: " ++ msg))
    ∧ (∀ status statusText (body : Except String β), statusOk status = false →
        classifyReply (.reply status statusText body)
          = .error ("LM Studio API request failed: HTTP " ++ toString status ++ ": " ++ statusText))
    ∧ (∀ status statusText pmsg, statusOk status = true →
        classifyReply (β := β) (.reply status statusText (.error pmsg))
          = .error ("LM Studio API response parsing failed: " ++ pmsg))
    ∧ (∀ status statusText (v : β), statusOk status = true →
        classifyReply (.reply status statusText (.ok v)) = .ok v) := by
  refine ⟨fun r => rfl, fun msg => rfl, ?_, ?_, ?_⟩
  · intro status statusText body hok
    simp [classifyReply, hok]
  · intro status statusText pmsg hok
    simp [classifyReply, hok]
  · intro status statusText v hok
    simp [classifyReply, hok]

/-- C5 witness: the taxonomy evaluated at a transport failure and at status 500. -/
theorem makeRequest_error_taxonomy_witness :
    classifyReply (β := LMStudioModelsResponse) (.netError "connect ECONNREFUSED")
        = .error ("LM Studio API request failed: " ++ "connect ECONNREFUSED")
    ∧ classifyReply (β := LMStudioModelsResponse)
          (.reply 500 "Internal Server Error" (.error "body"))
        = .error ("LM Studio API request failed: HTTP " ++ toString 500
            ++ ": " ++ "Internal Server Error") :=
  ⟨(makeRequest_error_taxonomy [] "/models" {}).2.1 "connect ECONNREFUSED",
   (makeRequest_error_taxonomy [] "/models" {}).2.2.1 500 "Internal Server Error"
     (.error "body") (by decide)⟩

/-- C1: whenever the forwarder raises an error (including an HTTP 500 status),
each LM-Studio-backed handler still returns a successful result with a single
text block that begins with a failure indicator and contains the error message;
for HTTP errors that message contains the status code. No exception escapes
the handler (each handler is a total function into ToolResult). -/
theorem lm_tools_error_result (args : List String) (p : String) (sp : Option String)
    (rL : HttpReply LMStudioModelsResponse) (rG rC : HttpReply ChatCompletionResponse)
    (mL mG mC : String)
    (hL : classifyReply rL = .error mL)
    (hG : classifyReply rG = .error mG)
    (hC : classifyReply rC = .error mC) :
    ((lmstudio_list_models args).trace fun _ => rL).1
        = textResult ("❌ Failed to list models\nError: " ++ mL)
    ∧ ((lmstudio_get_current_model args).trace fun _ => rG).1
        = textResult ("❌ Failed to get current model\nError: " ++ mG
            ++ "\n\nNote: Make sure a model is loaded and running in LM Studio.")
    ∧ ((lmstudio_chat_completion args p sp).trace fun _ => rC).1
        = textResult ("❌ Failed to generate completion\nError: " ++ mC
            ++ "\n\nNote: Make sure a model is loaded and running in LM Studio.")
    ∧ (∀ status statusText (body : Except String LMStudioModelsResponse) m,
        statusOk status = false →
        classifyReply (.reply status statusText body) = .error m →
        ∃ pre post, m = pre ++ toString status ++ post) := by
  refine ⟨?_, ?_, ?_, ?_⟩
  · simp [lmstudio_list_models, makeRequest, HttpM.bind, HttpM.trace, hL]
  · simp [lmstudio_get_current_model, makeRequest, HttpM.bind, HttpM.trace, hG]
  · simp [lmstudio_chat_completion, makeRequest, HttpM.bind, HttpM.trace, hC]
  · intro status statusText body m hok hcl
    refine ⟨"LM Studio API request failed: HTTP ", ": " ++ statusText, ?_⟩
    simp only [classifyReply, hok, Bool.false_eq_true, if_false, Except.error.injEq] at hcl
    rw [← hcl]
    simp [String.append_assoc]

/-- C1 witness: the error paths evaluated at a transport failure for the model
list, an HTTP 500 for the probe, and a parse failure for the completion. -/
theorem lm_tools_error_result_witness :
    ((lmstudio_list_models []).trace fun _ => .netError "boom").1
        = textResult ("❌ Failed to list models\nError: "
            ++ "LM Studio API request failed: boom")
    ∧ ((lmstudio_get_current_model []).trace fun _ =>
          .reply 500 "Internal Server Error" (.error "ignored")).1
        = textResult ("❌ Failed to get current model\nError: "
            ++ "LM Studio API request failed: HTTP 500: Internal Server Error"
            ++ "\n\nNote: Make sure a model is loaded and running in LM Studio.")
    ∧ ((lmstudio_chat_completion [] "hi" none).trace fun _ =>
          .reply 200 "OK" (.error "Unexpected token")).1
        = textResult ("❌ Failed to generate completion\nError: "
            ++ "LM Studio API response parsing failed: Unexpected token"
            ++ "\n\nNote: Make sure a model is loaded and running in LM Studio.")
    ∧ (∀ status statusText (body : Except String LMStudioModelsResponse) m,
        statusOk status = false →
        classifyReply (.reply status statusText body) = .error m →
        ∃ pre post, m = pre ++ toString status ++ post) :=
  lm_tools_error_result [] "hi" none (.netError "boom")
    (.reply 500 "Internal Server Error" (.error "ignored"))
    (.reply 200 "OK" (.error "Unexpected token"))
    _ _ _ rfl rfl rfl

/-- C2 counterexample: with prompt "hi" and system_prompt provided as the empty
string, the handler forwards a one-element [user] list, not the claimed
[system, user] pair, because `if (system_prompt)` tests truthiness. -/
theorem chat_forwarded_messages_cex :
    chatMessages "hi" (some "") = [{ role := Role.user, content := "hi" }]
    ∧ ((lmstudio_chat_completion [] "hi" (some "")).trace fun _ => .netError "x").2 ≠
      [("http://localhost:1234/v1/chat/completions",
        { method := some "POST"
          body := some { model := "local-model"
                         messages := [{ role := Role.system, content := "" },
                                      { role := Role.user, content := "hi" }] } })] := by
  constructor
  · rfl
  · decide

/-- C2 amended: for every prompt p, lmstudio_chat_completion forwards to POST
/chat/completions a message list [system s, user p] whenever system_prompt is
provided with a non-empty value s; when system_prompt is not provided the
forwarded list is exactly [user p]. (As written the claim fails for a provided
empty system_prompt, which the handler drops; see the counterexample.) -/
theorem chat_forwarded_messages (args : List String) (p : String)
    (oracle : Nat → HttpReply ChatCompletionResponse) :
    ((lmstudio_chat_completion args p none).trace oracle).2 =
      [(requestUrl args "/chat/completions",
        { method := some "POST"
          body := some { model := "local-model"
                         messages := [{ role := Role.user, content := p }] } })]
    ∧ ∀ s, s ≠ "" →
      ((lmstudio_chat_completion args p (some s)).trace oracle).2 =
        [(requestUrl args "/chat/completions",
          { method := some "POST"
            body := some { model := "local-model"
                           messages := [{ role := Role.system, content := s },
                                        { role := Role.user, content := p }] } })] := by
  constructor
  · rfl
  · intro s hs
    simp [lmstudio_chat_completion, makeRequest, HttpM.bind, HttpM.trace, chatMessages, hs]

/-- C2 witness: the amended forwarding law evaluated at prompt "hi" with the
non-empty system prompt "be brief". -/
theorem chat_forwarded_messages_witness :
    ((lmstudio_chat_completion [] "hi" (some "be brief")).trace fun _ => .netError "x").2 =
      [(requestUrl [] "/chat/completions",
        { method := some "POST"
          body := some { model := "local-model"
                         messages := [{ role := Role.system, content := "be brief" },
                                      { role := Role.user, content := "hi" }] } })] :=
  (chat_forwarded_messages [] "hi" fun _ => .netError "x").2 "be brief" (by decide)

/-- C8: a provided but empty system_prompt is dropped: the handler tests the
value for truthiness, so the forwarded message list holds only the user
message, for every prompt p and every command line. -/
theorem empty_system_prompt_omitted (args : List String) (p : String)
    (oracle : Nat → HttpReply ChatCompletionResponse) :
    ((lmstudio_chat_completion args p (some "")).trace oracle).2 =
      [(requestUrl args "/chat/completions",
        { method := some "POST"
          body := some { model := "local-model"
                         messages := [{ role := Role.user, content := p }] } })] := by
  simp [lmstudio_chat_completion, makeRequest, HttpM.bind, HttpM.trace, chatMessages]

/-- C3 counterexample: with the command line ["--base-url", ""] a value is
present for --base-url, yet the URL is not that value followed by /v1 and the
endpoint: the empty string is falsy, so the default base URL is used. -/
theorem requestUrl_empty_value_cex :
    requestUrl ["--base-url", ""] "/models" = "http://localhost:1234/v1/models"
    ∧ ¬ requestUrl ["--base-url", ""] "/models" = "" ++ V1 ++ "/models" := by
  constructor
  · rfl
  · decide

/-- C3 amended: if the first --base-url argument is followed by a non-empty
value v, the outbound URL is v ++ "/v1" ++ endpoint; when no --base-url value
is found (flag absent or in last position) or the value is empty, the URL is
"http://localhost:1234" ++ "/v1" ++ endpoint. (As written the claim fails for
the empty-string value; see the counterexample.) -/
theorem requestUrl_resolution (args : List String) (endpoint : String) :
    (∀ i v, args.findIdx? (· == "--base-url") = some i → args[i + 1]? = some v →
        v ≠ "" → requestUrl args endpoint = v ++ "/v1" ++ endpoint)
    ∧ (baseUrlFromArgs args = none ∨ baseUrlFromArgs args = some "" →
        requestUrl args endpoint = "http://localhost:1234" ++ "/v1" ++ endpoint) := by
  constructor
  · intro i v h1 h2 h3
    simp [requestUrl, resolvedBaseUrl, baseUrlFromArgs, h1, h2, strOr, h3, V1]
  · intro h
    rcases h with h | h <;>
      simp [requestUrl, resolvedBaseUrl, h, strOr, LM_STUDIO_BASE_URL, V1]

/-- C3 witness: the amended resolution evaluated with --base-url
http://host:9999 and with an empty command line. -/
theorem requestUrl_resolution_witness :
    requestUrl ["--base-url", "http://host:9999"] "/models"
        = "http://host:9999" ++ "/v1" ++ "/models"
    ∧ requestUrl [] "/models" = "http://localhost:1234" ++ "/v1" ++ "/models" :=
  ⟨(requestUrl_resolution ["--base-url", "http://host:9999"] "/models").1 0
      "http://host:9999" (by decide) (by decide) (by decide),
   (requestUrl_resolution [] "/models").2 (Or.inl rfl)⟩

/-- C10: when --base-url is the final command-line argument (and does not occur
earlier), no value follows it, so the forwarder uses the default base URL
http://localhost:1234 instead of erroring or using an undefined value. -/
theorem trailing_base_url_defaults (l : List String) (endpoint : String)
    (h : "--base-url" ∉ l) :
    baseUrlFromArgs (l ++ ["--base-url"]) = none
    ∧ requestUrl (l ++ ["--base-url"]) endpoint
        = "http://localhost:1234" ++ "/v1" ++ endpoint := by
  have hfind := findIdx?_flag_last l h
  have hnone : baseUrlFromArgs (l ++ ["--base-url"]) = none := by
    simp only [baseUrlFromArgs, hfind]
    exact List.getElem?_eq_none (by simp)
  exact ⟨hnone, by simp [requestUrl, resolvedBaseUrl, hnone, strOr, LM_STUDIO_BASE_URL, V1]⟩

/-- C10 witness: the fallback evaluated on the command line
["some-arg", "--base-url"]. -/
theorem trailing_base_url_defaults_witness :
    baseUrlFromArgs ["some-arg", "--base-url"] = none
    ∧ requestUrl ["some-arg", "--base-url"] "/models"
        = "http://localhost:1234" ++ "/v1" ++ "/models" :=
  trailing_base_url_defaults ["some-arg"] "/models" (by decide)

/-- C7 counterexample: the echo tool is a registered tool whose invocation
performs zero outbound HTTP calls, refuting "exactly one outbound call per
invocation of every registered tool" at the input text "hi". -/
theorem echo_zero_calls_cex :
    ¬ ((echo (β := Unit) "hi").trace fun _ => .netError "").2.length = 1 := by
  decide

/-- C7 amended: every LM-Studio-backed tool performs exactly one outbound HTTP
call per invocation, whatever reply the network gives; the echo tool performs
zero outbound calls. -/
theorem one_call_per_lm_tool (args : List String) (p : String) (sp : Option String)
    (oL : Nat → HttpReply LMStudioModelsResponse)
    (oG oC : Nat → HttpReply ChatCompletionResponse)
    (oU : Nat → HttpReply Unit) :
    ((lmstudio_list_models args).trace oL).2.length = 1
    ∧ ((lmstudio_get_current_model args).trace oG).2.length = 1
    ∧ ((lmstudio_chat_completion args p sp).trace oC).2.length = 1
    ∧ ((echo (β := Unit) p).trace oU).2.length = 0 :=
  ⟨rfl, rfl, rfl, rfl⟩

/-- C4: on a parsed response carrying an empty data array, lmstudio_list_models
returns the fixed no-models message; on a non-empty array it returns the header
plus a newline-joined list whose k-th line (0-indexed k) is numbered k+1 and
shows the label of the k-th model of the input, in input order. -/
theorem list_models_formatting (args : List String) (st : String)
    (response : LMStudioModelsResponse) (models : List LMStudioModel)
    (hdata : response.data = some models) :
    (models = [] →
      ((lmstudio_list_models args).trace fun _ => .reply 200 st (.ok response)).1 =
        textResult "No models found in LM Studio. Make sure you have loaded models in LM Studio.")
    ∧ (models ≠ [] →
      ∃ lines : List String,
        ((lmstudio_list_models args).trace fun _ => .reply 200 st (.ok response)).1 =
          textResult ("Available LM Studio Models (" ++ toString models.length
            ++ " total):\n\n" ++ String.intercalate "\n" lines)
        ∧ lines.length = models.length
        ∧ ∀ k (hk : k < models.length),
            lines[k]? = some (toString (k + 1) ++ ". " ++ modelLabel models[k])) := by
  have hres : ((lmstudio_list_models args).trace fun _ => .reply 200 st (.ok response)).1
      = renderListModels response := rfl
  constructor
  · intro he
    subst he
    rw [hres]
    simp [renderListModels, hdata]
  · intro hne
    refine ⟨models.enum.map fun q => toString (q.1 + 1) ++ ". " ++ modelLabel q.2,
      ?_, ?_, ?_⟩
    · rw [hres]
      have hlen : models.length ≠ 0 := by simpa [List.length_eq_zero] using hne
      simp [renderListModels, hdata, modelListText, hlen]
    · simp [List.enum_length]
    · intro k hk
      rw [List.getElem?_map, List.getElem?_enum]
      simp [List.getElem?_eq_getElem hk]

/-- C4 witness: the formatting law evaluated on the empty data array and on the
two-element sample list. -/
theorem list_models_formatting_witness :
    (((lmstudio_list_models []).trace fun _ =>
        .reply 200 "OK" (.ok { data := some [] })).1 =
      textResult "No models found in LM Studio. Make sure you have loaded models in LM Studio.")
    ∧ ∃ lines : List String,
        ((lmstudio_list_models []).trace fun _ =>
            .reply 200 "OK" (.ok { data := some sampleModels })).1 =
          textResult ("Available LM Studio Models (" ++ toString sampleModels.length
            ++ " total):\n\n" ++ String.intercalate "\n" lines)
        ∧ lines.length = sampleModels.length
        ∧ ∀ k (hk : k < sampleModels.length),
            lines[k]? = some (toString (k + 1) ++ ". " ++ modelLabel sampleModels[k]) :=
  ⟨(list_models_formatting [] "OK" { data := some [] } [] rfl).1 rfl,
   (list_models_formatting [] "OK" { data := some sampleModels } sampleModels rfl).2
     (by decide)⟩

/-- C9: every handler is total on parsed responses with missing fields:
lmstudio_list_models treats absent data as an empty list and returns the
no-models message; the chat handlers substitute "unknown" for a missing model,
the fixed no-response fallback when the choices/message/content chain is
missing or empty, and the empty object for missing usage. -/
theorem handlers_default_missing_fields (args : List String) (st : String) :
    (((lmstudio_list_models args).trace fun _ => .reply 200 st (.ok { data := none })).1 =
        textResult "No models found in LM Studio. Make sure you have loaded models in LM Studio.")
    ∧ (∀ r : ChatCompletionResponse, r.model = none → firstChoiceContent r = none →
        ((lmstudio_get_current_model args).trace fun _ => .reply 200 st (.ok r)).1 =
          textResult "Current Model: unknown\n\nModel Response: No response")
    ∧ (∀ r : ChatCompletionResponse, r.model = none → firstChoiceContent r = none →
        r.usage = none →
        ((lmstudio_chat_completion args "hi" none).trace fun _ => .reply 200 st (.ok r)).1 =
          textResult ("**Model:** unknown\n\n**Response:**\nNo response generated"
            ++ "\n\n**Usage:** \x7b\x7d"))
    ∧ (∀ r : ChatCompletionResponse, r.choices = none → firstChoiceContent r = none)
    ∧ (∀ r : ChatCompletionResponse, r.choices = some [] → firstChoiceContent r = none)
    ∧ (∀ (c : ChatCompletionChoice) rest (r : ChatCompletionResponse),
        r.choices = some (c :: rest) → c.message = none → firstChoiceContent r = none)
    ∧ strOr (some "") "No response generated" = "No response generated" := by
  refine ⟨rfl, ?_, ?_, ?_, ?_, ?_, rfl⟩
  · intro r hm hc
    have hr : ((lmstudio_get_current_model args).trace fun _ => .reply 200 st (.ok r)).1
        = renderCurrentModel r := rfl
    rw [hr]
    simp [renderCurrentModel, hm, hc, strOr]
  · intro r hm hc hu
    have hr : ((lmstudio_chat_completion args "hi" none).trace fun _ =>
        .reply 200 st (.ok r)).1 = renderChatCompletion r := rfl
    rw [hr]
    simp [renderChatCompletion, hm, hc, hu, strOr, stringifyUsage]
  · intro r h
    simp [firstChoiceContent, h]
  · intro r h
    simp [firstChoiceContent, h]
  · intro c rest r h hmsg
    simp [firstChoiceContent, h, hmsg]

/-- C9 witness: the fallbacks evaluated on the fully-empty parsed response. -/
theorem handlers_default_missing_fields_witness :
    ((lmstudio_get_current_model []).trace fun _ => .reply 200 "OK" (.ok {})).1 =
      textResult "Current Model: unknown\n\nModel Response: No response" :=
  (handlers_default_missing_fields [] "OK").2.1 {} rfl rfl

end LmStudioMcp
